import Mathlib

/-!
Verification development for the EduAI-Companion backend grading pipeline.

The Python backend (FastAPI + SQLAlchemy + an Ollama inference client) is
shallowly embedded here:

* Python `float` values are modeled as `ℚ` (all score arithmetic in the
  source is exact decimal arithmetic on small values).
* Python dictionaries decoded from JSON are modeled by the `Json` inductive
  type; `dict.get` / `dict[...]` are modeled by `objGet` / `pyGetItem`.
* `json.loads` is modeled by `jsonLoads`, a fuel-based JSON parser
  (strict mode, as Python's default: the nonstandard NaN/Infinity
  extensions are not modeled since ℚ has no such values).
* Fallible Python code (statements that can raise) is modeled in
  `Except String α`; a caught exception is an `Except.error`.
* `datetime.now()` is modeled by passing the current timestamp explicitly.
* The LLM reply obtained through `OllamaService._generate` is modeled as an
  explicit `Except String String` argument (communication failure or raw
  reply text), since the inference backend is an external collaborator.

Definitions are translated from the repository sources
(`backend/routers/quizzes.py`, `backend/routers/assignments.py`,
`backend/ollama_service.py`, `backend/models.py`); definitions written from
the specification's words instead are explicitly named `claim...`.
-/

namespace EduAI

/-! ## Python string primitives -/

/-- Whitespace set of Python's `str.strip()` (ASCII part). -/
def isPySpace (c : Char) : Bool :=
  c == ' ' || c == '\t' || c == '\n' || c == '\r' ||
  c == Char.ofNat 11 || c == Char.ofNat 12

/-- Python `str.strip()`: remove leading and trailing whitespace. -/
def pyStrip (s : String) : String :=
  ⟨((s.data.dropWhile isPySpace).reverse.dropWhile isPySpace).reverse⟩

/-- Python `str.lower()` (ASCII approximation, enough for the stored data). -/
def pyLower (s : String) : String :=
  ⟨s.data.map Char.toLower⟩

/-- Python `needle in haystack` for strings: substring containment. -/
def pySubstr (needle haystack : String) : Bool :=
  decide (needle.data <:+: haystack.data)

/-! ## Deterministic quiz grader
(`submit_quiz_attempt`, backend/routers/quizzes.py lines 92-113).

A stored quiz question is a JSON dictionary; the grader reads only
`question_type`, `correct_answer` and `points`, each of which may be absent,
so the embedding keeps exactly those three optional fields. -/

structure QuizQuestion where
  question_type : Option String
  correct_answer : Option String
  points : Option ℚ

/-- `question.get("points", 1.0)`. -/
def qPoints (q : QuizQuestion) : ℚ := q.points.getD 1

/-- `attempt.answers.get(str(idx), "")`: the attempt's answers keyed by the
question index rendered as a string (absent index yields `""`). -/
def lookupAnswer (answers : List (String × String)) (idx : ℕ) : String :=
  (answers.lookup (toString idx)).getD ""

/-- `question.get("question_type") in ["multiple_choice", "true_false"]`. -/
def isChoiceType (q : QuizQuestion) : Bool :=
  q.question_type == some "multiple_choice" || q.question_type == some "true_false"

/-- `.strip().lower()` normalization applied to both answers. -/
def normalizeAns (s : String) : String := pyLower (pyStrip s)

/-- One loop iteration's correctness test (quizzes.py lines 104-110):
choice types use exact equality of the normalized answers; every other type
uses `student_answer and correct_answer and student_answer in correct_answer`. -/
def answerCorrect (q : QuizQuestion) (rawAnswer : String) : Bool :=
  let sa := normalizeAns rawAnswer
  let ca := normalizeAns (q.correct_answer.getD "")
  if isChoiceType q then sa == ca
  else sa != "" && ca != "" && pySubstr sa ca

/-- `total_points` accumulated over the questions in declaration order. -/
def quizTotalPoints : List QuizQuestion → ℚ
  | [] => 0
  | q :: rest => qPoints q + quizTotalPoints rest

/-- `earned_points` accumulated from question index `i` on. -/
def quizEarnedFrom (answers : List (String × String)) : ℕ → List QuizQuestion → ℚ
  | _, [] => 0
  | i, q :: rest =>
    (if answerCorrect q (lookupAnswer answers i) then qPoints q else 0)
      + quizEarnedFrom answers (i + 1) rest

/-- `earned_points` over the whole quiz (loop starts at index 0). -/
def quizEarnedPoints (questions : List QuizQuestion) (answers : List (String × String)) : ℚ :=
  quizEarnedFrom answers 0 questions

/-- The score computed by `submit_quiz_attempt` (quizzes.py line 113):
`(earned_points / total_points * 100) if total_points > 0 else 0`. -/
def submitQuizAttemptScore (questions : List QuizQuestion)
    (answers : List (String × String)) : ℚ :=
  if 0 < quizTotalPoints questions then
    quizEarnedPoints questions answers / quizTotalPoints questions * 100
  else 0

/-! Reference definition written from the specification's words (for the
refinement claim about the quiz grader): a non-choice question earns its
points iff the normalized student answer is non-empty and is a substring of
the normalized correct answer, and the final score is
`earnedPoints / totalPoints × 100`, or 0 when `totalPoints` is 0. -/

/-- Per-question rule as the specification states it (no separate
non-emptiness test on the correct answer). -/
def claimAnswerCorrect (q : QuizQuestion) (rawAnswer : String) : Bool :=
  let sa := normalizeAns rawAnswer
  let ca := normalizeAns (q.correct_answer.getD "")
  if isChoiceType q then sa == ca
  else sa != "" && pySubstr sa ca

def claimEarnedFrom (answers : List (String × String)) : ℕ → List QuizQuestion → ℚ
  | _, [] => 0
  | i, q :: rest =>
    (if claimAnswerCorrect q (lookupAnswer answers i) then qPoints q else 0)
      + claimEarnedFrom answers (i + 1) rest

/-- Quiz score exactly as the claim words it: `earned / total × 100`,
or 0 when `totalPoints` is 0. -/
def claimQuizScore (questions : List QuizQuestion)
    (answers : List (String × String)) : ℚ :=
  let tp := quizTotalPoints questions
  let ep := claimEarnedFrom answers 0 questions
  if tp = 0 then 0 else ep / tp * 100

/-- Quiz score as the claim words it, amended only in the guard: the score
is 0 whenever `totalPoints` is not positive. -/
def claimQuizScoreAmended (questions : List QuizQuestion)
    (answers : List (String × String)) : ℚ :=
  let tp := quizTotalPoints questions
  let ep := claimEarnedFrom answers 0 questions
  if 0 < tp then ep / tp * 100 else 0

/-! ## JSON values

Values produced by Python's `json.loads`. Numbers are modeled as `ℚ`
(Python distinguishes `int` and `float`; every claim under study only
depends on the numeric value). The nonstandard `NaN`/`Infinity` extensions
of Python's decoder have no counterpart in `ℚ` and are not modeled. -/

inductive Json where
  | null
  | bool (b : Bool)
  | num (q : ℚ)
  | str (s : String)
  | arr (elems : List Json)
  | obj (fields : List (String × Json))

/-- Python `dict.get(key)` on a decoded JSON object (`None` ↦ `none`). -/
def objGet (fields : List (String × Json)) (key : String) : Option Json :=
  List.lookup key fields

/-- Dictionary insertion as performed while decoding: a repeated key keeps
its original position and takes the later value (CPython `dict` semantics). -/
def objInsert (fields : List (String × Json)) (key : String) (v : Json) :
    List (String × Json) :=
  match fields with
  | [] => [(key, v)]
  | (k', v') :: rest =>
    if k' = key then (k', v) :: rest else (k', v') :: objInsert rest key v

/-- `Char.ofNat 123`, written this way to keep brace characters out of
literals. -/
def lbrace : Char := Char.ofNat 123

/-- `Char.ofNat 125`. -/
def rbrace : Char := Char.ofNat 125

/-! ## `json.loads`

A fuel-based strict JSON parser mirroring Python's default decoder on the
grammar `value := object | array | string | number | true | false | null`.
Numbers are built with `mkRat` over integer arithmetic so concrete parses
reduce inside the kernel. -/

/-- Whitespace skipped by the JSON grammar. -/
def jsonWs (c : Char) : Bool :=
  c == ' ' || c == '\t' || c == '\n' || c == '\r'

def skipWs (cs : List Char) : List Char := cs.dropWhile jsonWs

def hexVal? (c : Char) : Option ℕ :=
  if 48 ≤ c.toNat ∧ c.toNat ≤ 57 then some (c.toNat - 48)
  else if 97 ≤ c.toNat ∧ c.toNat ≤ 102 then some (c.toNat - 87)
  else if 65 ≤ c.toNat ∧ c.toNat ≤ 70 then some (c.toNat - 55)
  else none

/-- Body of a JSON string literal after the opening quote: returns the
decoded characters and the remaining input after the closing quote.
Unescaped control characters are rejected (Python's strict mode). -/
def parseStringChars : ℕ → List Char → Option (List Char × List Char)
  | 0, _ => none
  | fuel + 1, cs =>
    match cs with
    | [] => none
    | c :: rest =>
      if c = '"' then some ([], rest)
      else if c = '\\' then
        match rest with
        | [] => none
        | e :: rest2 =>
          if e = '"' ∨ e = '\\' ∨ e = '/' then
            (parseStringChars fuel rest2).map fun p => (e :: p.1, p.2)
          else if e = 'b' then
            (parseStringChars fuel rest2).map fun p => (Char.ofNat 8 :: p.1, p.2)
          else if e = 'f' then
            (parseStringChars fuel rest2).map fun p => (Char.ofNat 12 :: p.1, p.2)
          else if e = 'n' then
            (parseStringChars fuel rest2).map fun p => ('\n' :: p.1, p.2)
          else if e = 'r' then
            (parseStringChars fuel rest2).map fun p => ('\r' :: p.1, p.2)
          else if e = 't' then
            (parseStringChars fuel rest2).map fun p => ('\t' :: p.1, p.2)
          else if e = 'u' then
            match rest2 with
            | h1 :: h2 :: h3 :: h4 :: rest3 =>
              match hexVal? h1, hexVal? h2, hexVal? h3, hexVal? h4 with
              | some a, some b, some c3, some d =>
                (parseStringChars fuel rest3).map fun p =>
                  (Char.ofNat (((a * 16 + b) * 16 + c3) * 16 + d) :: p.1, p.2)
              | _, _, _, _ => none
            | _ => none
          else none
      else if c.toNat < 32 then none
      else (parseStringChars fuel rest).map fun p => (c :: p.1, p.2)

def digitsToNat (ds : List Char) : ℕ :=
  ds.foldl (fun a c => a * 10 + (c.toNat - 48)) 0

/-- Optional fraction part `.digits` of a JSON number. -/
def parseFracPart (cs : List Char) : Option (List Char × List Char) :=
  match cs with
  | d :: rest =>
    if d = '.' then
      let fd := rest.takeWhile Char.isDigit
      if fd = [] then none else some (fd, rest.dropWhile Char.isDigit)
    else some ([], cs)
  | [] => some ([], cs)

/-- Optional exponent part `e[+-]digits` of a JSON number. -/
def parseExpPart (cs : List Char) : Option (ℤ × List Char) :=
  match cs with
  | e :: rest =>
    if e = 'e' ∨ e = 'E' then
      let sr : ℤ × List Char :=
        match rest with
        | s :: r2 => if s = '+' then (1, r2) else if s = '-' then (-1, r2) else (1, rest)
        | [] => (1, rest)
      let ed := sr.2.takeWhile Char.isDigit
      if ed = [] then none
      else some (sr.1 * (digitsToNat ed : ℤ), sr.2.dropWhile Char.isDigit)
    else some (0, cs)
  | [] => some (0, cs)

/-- A JSON number: `-? int frac? exp?` with no leading zeros on a
multi-digit integer part. -/
def parseNumber (cs : List Char) : Option (ℚ × List Char) :=
  let sc : ℤ × List Char :=
    match cs with
    | c :: rest => if c = '-' then (-1, rest) else (1, cs)
    | [] => (1, cs)
  match sc.2 with
  | [] => none
  | c :: _ =>
    if c.isDigit then
      let intDigits := sc.2.takeWhile Char.isDigit
      let cs2 := sc.2.dropWhile Char.isDigit
      if 1 < intDigits.length ∧ intDigits.headD ' ' = '0' then none
      else
        match parseFracPart cs2 with
        | none => none
        | some (fracDigits, cs3) =>
          match parseExpPart cs3 with
          | none => none
          | some (e, cs4) =>
            let mantissa : ℤ := sc.1 * (digitsToNat (intDigits ++ fracDigits) : ℤ)
            let p10 : ℤ := e - fracDigits.length
            let q : ℚ :=
              if 0 ≤ p10 then mkRat (mantissa * (10 : ℤ) ^ p10.toNat) 1
              else mkRat mantissa ((10 : ℕ) ^ (-p10).toNat)
            some (q, cs4)
    else none

/-- Recursion tasks of the value parser: a value, the members of an object
being read, or the elements of an array being read. -/
inductive ParseTask where
  | value
  | members (acc : List (String × Json))
  | elements (acc : List Json)

def parseStep : ℕ → ParseTask → List Char → Option (Json × List Char)
  | 0, _, _ => none
  | fuel + 1, task, cs =>
    match task with
    | .value =>
      match skipWs cs with
      | [] => none
      | c :: rest =>
        if c = lbrace then
          match skipWs rest with
          | d :: rest2 =>
            if d = rbrace then some (.obj [], rest2)
            else parseStep fuel (.members []) (d :: rest2)
          | [] => none
        else if c = '[' then
          match skipWs rest with
          | d :: rest2 =>
            if d = ']' then some (.arr [], rest2)
            else parseStep fuel (.elements []) (d :: rest2)
          | [] => none
        else if c = '"' then
          match parseStringChars fuel rest with
          | some (body, r) => some (.str ⟨body⟩, r)
          | none => none
        else if c = 't' then
          match rest with
          | 'r' :: 'u' :: 'e' :: r => some (.bool true, r)
          | _ => none
        else if c = 'f' then
          match rest with
          | 'a' :: 'l' :: 's' :: 'e' :: r => some (.bool false, r)
          | _ => none
        else if c = 'n' then
          match rest with
          | 'u' :: 'l' :: 'l' :: r => some (.null, r)
          | _ => none
        else
          match parseNumber (c :: rest) with
          | some (q, r) => some (.num q, r)
          | none => none
    | .members acc =>
      match skipWs cs with
      | c :: rest =>
        if c = '"' then
          match parseStringChars fuel rest with
          | some (keyChars, r1) =>
            match skipWs r1 with
            | d :: r2 =>
              if d = ':' then
                match parseStep fuel .value r2 with
                | some (v, r3) =>
                  match skipWs r3 with
                  | e :: r4 =>
                    if e = ',' then parseStep fuel (.members (objInsert acc ⟨keyChars⟩ v)) r4
                    else if e = rbrace then some (.obj (objInsert acc ⟨keyChars⟩ v), r4)
                    else none
                  | [] => none
                | none => none
              else none
            | [] => none
          | none => none
        else none
      | [] => none
    | .elements acc =>
      match parseStep fuel .value cs with
      | some (v, r1) =>
        match skipWs r1 with
        | e :: r2 =>
          if e = ',' then parseStep fuel (.elements (acc ++ [v])) r2
          else if e = ']' then some (.arr (acc ++ [v]), r2)
          else none
        | [] => none
      | none => none

/-- `json.loads`: parse a complete JSON value with only surrounding
whitespace allowed; `none` models the raised `JSONDecodeError`. The fuel
`4 * (length + 2)` dominates the parser's call depth, which consumes at
least one input character per four nested calls. -/
def jsonLoads (s : String) : Option Json :=
  match parseStep (4 * (s.length + 2)) .value s.data with
  | some (j, rest) => if skipWs rest = [] then some j else none
  | none => none

/-! ## Locating the JSON span in a raw model reply

`grade_essay` and the other extraction sites compute
`response[response.find(lbrace) : response.rfind(rbrace) + 1]`.
`find`/`rfind`/slicing follow CPython semantics, including the `-1`
"not found" result and negative-index slicing. -/

/-- Index of the first occurrence, `none` when absent. -/
def firstIdxN : List Char → Char → Option ℕ
  | [], _ => none
  | x :: rest, c =>
    if x = c then some 0
    else
      match firstIdxN rest c with
      | some r => some (r + 1)
      | none => none

/-- Index of the last occurrence, `none` when absent. -/
def lastIdxN : List Char → Char → Option ℕ
  | [], _ => none
  | x :: rest, c =>
    match lastIdxN rest c with
    | some r => some (r + 1)
    | none => if x = c then some 0 else none

/-- Python `str.find`: index of the first occurrence or `-1`. -/
def pyFind (s : String) (c : Char) : Int :=
  match firstIdxN s.data c with
  | some r => r
  | none => -1

/-- Python `str.rfind`: index of the last occurrence or `-1`. -/
def pyRfind (s : String) (c : Char) : Int :=
  match lastIdxN s.data c with
  | some r => r
  | none => -1

/-- CPython slice-bound clamping: a negative index counts from the end
(bottoming out at 0, via `Int.toNat`), a nonnegative one is capped at the
length. -/
def sliceClamp (cs : List Char) (i : Int) : ℕ :=
  if i < 0 then (i + cs.length).toNat else min i.toNat cs.length

/-- CPython slice `s[i:j]`; an empty or inverted span yields `take 0`. -/
def pySliceList (cs : List Char) (i j : Int) : List Char :=
  (cs.drop (sliceClamp cs i)).take (sliceClamp cs j - sliceClamp cs i)

def pySlice (s : String) (i j : Int) : String :=
  ⟨pySliceList s.data i j⟩

/-- The substring handed to `json.loads` by every extraction site:
`response[response.find(lbrace) : response.rfind(rbrace) + 1]`. -/
def extractJsonStr (response : String) : String :=
  pySlice response (pyFind response lbrace) (pyRfind response rbrace + 1)

/-! ## Python value semantics on decoded JSON

Helpers modeling the Python operations the pipeline applies to decoded
JSON values. Operations that can raise return `Except String α`, the error
string naming the Python exception class. -/

/-- Python truthiness of a decoded JSON value. -/
def pyTruthy : Json → Bool
  | .null => false
  | .bool b => b
  | .num q => q != 0
  | .str s => s != ""
  | .arr xs => !xs.isEmpty
  | .obj fs => !fs.isEmpty

/-- Python `str(value)` as used inside composed feedback text. Exact for
strings, booleans, `None` and integers; the rendering of non-integer
numbers and nested containers is abbreviated (no claim depends on the
rendered text, only on the composition being a fixed total function). -/
def pyStr : Json → String
  | .null => "None"
  | .bool b => if b then "True" else "False"
  | .num q => if q.den = 1 then toString q.num else toString q.num ++ "/" ++ toString q.den
  | .str s => s
  | .arr _ => "[...]"
  | .obj _ => "..."

/-- Python `value[key]`: `KeyError` on a missing key, `TypeError` when the
value is not a dictionary. -/
def pyGetItem (j : Json) (key : String) : Except String Json :=
  match j with
  | .obj fs =>
    match objGet fs key with
    | some v => .ok v
    | none => .error "KeyError"
  | _ => .error "TypeError"

/-- Python `value.get(key, default)`: `AttributeError` when the value is
not a dictionary. -/
def pyDictGetD (j : Json) (key : String) (dflt : Json) : Except String Json :=
  match j with
  | .obj fs => .ok ((objGet fs key).getD dflt)
  | _ => .error "AttributeError"

/-- Python iteration over a decoded JSON value: lists yield their elements,
strings yield one-character strings, dictionaries yield their keys;
everything else raises `TypeError`. -/
def pyIter : Json → Except String (List Json)
  | .arr xs => .ok xs
  | .str s => .ok (s.data.map fun c => .str ⟨[c]⟩)
  | .obj fs => .ok (fs.map fun p => .str p.1)
  | _ => .error "TypeError"

/-- All parts must be strings for `sep.join(parts)`; otherwise `TypeError`. -/
def strOfJsonParts : List Json → Except String (List String)
  | [] => .ok []
  | .str s :: rest => (strOfJsonParts rest).map fun l => s :: l
  | _ :: _ => .error "TypeError"

/-- Python `sep.join(parts)`. -/
def pyJoin (sep : String) (parts : List Json) : Except String String :=
  (strOfJsonParts parts).map (String.intercalate sep)

/-! ## Structured response extraction: essay grading
(`OllamaService.grade_essay`, backend/ollama_service.py lines 86-111).

The post-LLM part of `grade_essay`: locate the JSON span, `json.loads` it,
and coerce the expected fields. A `JSONDecodeError`/`ValueError` is caught
and produces the fallback payload; a successfully parsed non-dictionary
would raise `AttributeError` at `result.get`, which the function does not
catch. Python's literals `0.75` and `0.7` are the exact rationals `3/4`
and `7/10`. -/

structure EssayGrade where
  score : Json
  feedback : Json
  rubric_scores : Json
  strengths : Json
  areas_for_improvement : Json

/-- The `except (json.JSONDecodeError, ValueError)` fallback payload of
`grade_essay` (lines 104-111). -/
def essayFallback (maxPoints : ℚ) (response : String) : EssayGrade :=
  { score := .num (maxPoints * (3 / 4)),
    feedback := .str response,
    rubric_scores := .obj [],
    strengths := .arr [],
    areas_for_improvement := .arr [] }

def grade_essay (maxPoints : ℚ) (response : String) : Except String EssayGrade :=
  match jsonLoads (extractJsonStr response) with
  | none => .ok (essayFallback maxPoints response)
  | some (.obj fields) =>
    .ok { score := (objGet fields "overall_score").getD (.num (maxPoints * (7 / 10))),
          feedback := (objGet fields "detailed_feedback").getD
            (.str "Good work! Keep improving."),
          rubric_scores := (objGet fields "rubric_scores").getD (.obj []),
          strengths := (objGet fields "strengths").getD (.arr []),
          areas_for_improvement := (objGet fields "areas_for_improvement").getD (.arr []) }
  | some _ => .error "AttributeError"

/-! ## Structured response extraction: lesson plans
(`OllamaService.generate_lesson_plan`, lines 169-216). The parsed
dictionary is returned as-is after the `materials` normalization — absent
fields are not filled in; any `ValueError`/decode failure (including a
parsed non-dictionary, rejected by the `isinstance` check) produces the
fallback plan. -/

/-- `materials` normalization: a string value is split on commas, each
piece stripped, empty pieces dropped. -/
def lessonPlanMaterialsNorm (fields : List (String × Json)) : List (String × Json) :=
  match objGet fields "materials" with
  | some (.str ms) =>
    objInsert fields "materials"
      (.arr ((((ms.split (· == ',')).map pyStrip).filter fun m => m ≠ "").map .str))
  | _ => fields

/-- Fallback lesson plan (lines 200-216). -/
def lessonPlanFallback (topic : String) (objectives : Option (List String))
    (response : String) : Json :=
  .obj [("title", .str ("Lesson: " ++ topic)),
        ("objectives", .arr
          (match objectives with
           | some (o :: os) => (o :: os).map .str
           | _ => [.str ("Understand " ++ topic)])),
        ("materials", .arr [.str "Textbook", .str "Whiteboard", .str "Handouts"]),
        ("activities", .arr
          [.obj [("name", .str "Introduction"),
                 ("duration", .num 10),
                 ("description", .str ("Introduce " ++ topic)),
                 ("type", .str "warmup")]]),
        ("content", if response.length < 500 then .str response else .str "Lesson plan content"),
        ("standards_aligned", .arr []),
        ("differentiation", .str "Provide support as needed"),
        ("assessment", .str "Exit ticket")]

def generate_lesson_plan_extract (topic : String) (objectives : Option (List String))
    (response : String) : Json :=
  match jsonLoads (extractJsonStr response) with
  | some (.obj fields) => .obj (lessonPlanMaterialsNorm fields)
  | _ => lessonPlanFallback topic objectives response

/-! ## Structured response extraction: quiz generation
(`OllamaService.generate_quiz`, lines 259-278). -/

def quizFallbackQuestions (topic : String) : Json :=
  .arr [.obj [("question", .str ("Question about " ++ topic)),
              ("question_type", .str "short_answer"),
              ("options", .arr []),
              ("correct_answer", .str "Sample answer"),
              ("explanation", .str "Explanation"),
              ("points", .num 1)]]

def generate_quiz_extract (topic : String) (response : String) : Except String Json :=
  match jsonLoads (extractJsonStr response) with
  | none => .ok (quizFallbackQuestions topic)
  | some (.obj fields) => .ok ((objGet fields "questions").getD (.arr []))
  | some _ => .error "AttributeError"

/-! ## Structured response extraction: assignment questions
(`OllamaService.generate_assignment_questions`, lines 327-346). -/

def assignmentFallbackQuestions (topic : String) (numQuestions : ℕ) : Json :=
  .arr ((List.range numQuestions).map fun i =>
    .obj [("question_number", .num (i + 1)),
          ("question_text", .str ("Question " ++ toString (i + 1) ++ " about " ++ topic)),
          ("model_answer", .str "Model answer"),
          ("key_points", .arr [.str "Key point"]),
          ("points", .num 10)])

def generate_assignment_questions_extract (topic : String) (numQuestions : ℕ)
    (response : String) : Except String Json :=
  match jsonLoads (extractJsonStr response) with
  | none => .ok (assignmentFallbackQuestions topic numQuestions)
  | some (.obj fields) => .ok ((objGet fields "questions").getD (.arr []))
  | some _ => .error "AttributeError"

/-! ## Structured response extraction: answer-sheet grading
(`OllamaService.parse_and_grade_answer_sheet`, lines 413-446).

The returned dictionary's `rubric_scores` entry is a dict comprehension
indexing each parsed answer with `ans['question_number']` — a `KeyError` /
`TypeError` raised there is *not* caught by the
`except (json.JSONDecodeError, ValueError)` handler and escapes to the
caller. -/

structure AnswerSheetResult where
  parsed_answers : Json
  total_score : Json
  percentage : Json
  overall_feedback : Json
  strengths : Json
  areas_for_improvement : Json
  rubric_scores : Json

/-- Fallback grading payload (lines 437-446). -/
def answerSheetFallback (maxPoints : ℚ) : AnswerSheetResult :=
  { parsed_answers := .arr [],
    total_score := .num (maxPoints * (3 / 4)),
    percentage := .num 75,
    overall_feedback := .str "Answer sheet graded. Good effort overall.",
    strengths := .arr [.str "Attempted all questions"],
    areas_for_improvement := .arr [.str "Provide more detailed answers"],
    rubric_scores := .obj [] }

/-- The `rubric_scores` dict comprehension (lines 428-434), iterating the
parsed answers in order. -/
def buildRubricScores (acc : List (String × Json)) :
    List Json → Except String (List (String × Json))
  | [] => .ok acc
  | ans :: rest => do
    let qn ← pyGetItem ans "question_number"
    let scoreV ← pyDictGetD ans "score" (.num 0)
    let fbV ← pyDictGetD ans "feedback" (.str "")
    buildRubricScores
      (objInsert acc ("Question " ++ pyStr qn) (.obj [("score", scoreV), ("feedback", fbV)]))
      rest

def parse_and_grade_answer_sheet_extract (maxPoints : ℚ) (response : String) :
    Except String AnswerSheetResult :=
  match jsonLoads (extractJsonStr response) with
  | none => .ok (answerSheetFallback maxPoints)
  | some (.obj fields) => do
    let pa := (objGet fields "parsed_answers").getD (.arr [])
    let ansList ← pyIter pa
    let rs ← buildRubricScores [] ansList
    .ok { parsed_answers := pa,
          total_score := (objGet fields "total_score").getD (.num 0),
          percentage := (objGet fields "percentage").getD (.num 0),
          overall_feedback := (objGet fields "overall_feedback").getD (.str ""),
          strengths := (objGet fields "strengths").getD (.arr []),
          areas_for_improvement := (objGet fields "areas_for_improvement").getD (.arr []),
          rubric_scores := .obj rs }
  | some _ => .error "AttributeError"

/-! ## Grading orchestrator
(`grade_submission_task` and `grade_submission_manual`,
backend/routers/assignments.py lines 147-216 and 242-274).

The submission record keeps the four grading fields (plus the submitted
content); before grading all four are absent (`models.py` lines 79-83).
`datetime.now()` is the explicit `now : ℕ` argument; the single LLM round
trip of either strategy is the explicit `llm : Except String String`
argument (raw reply text, or the communication failure raised by
`OllamaService._generate`). The background task's `except Exception`
handler makes the whole operation a total function on the record: any
raised step (communication failure, `KeyError`/`TypeError` from malformed
stored data or model output) leaves the record unchanged. -/

structure SubmissionRec where
  content : String
  score : Option Json
  feedback : Option Json
  rubric_scores : Option Json
  graded_at : Option ℕ

/-- Assignment metadata consulted by grading: the stored `rubric` JSON
column (nullable) and `max_points`. -/
structure AssignmentRec where
  rubric : Option Json
  max_points : ℚ

/-- A freshly created submission: the grading fields are all absent. -/
def ungradedSubmission (content : String) : SubmissionRec :=
  { content := content, score := none, feedback := none,
    rubric_scores := none, graded_at := none }

/-- `assignment.rubric or` the empty dict (Python `or`: a falsy rubric is
replaced by the empty dictionary). -/
def rubricOrEmpty (r : Option Json) : Json :=
  match r with
  | some j => if pyTruthy j then j else .obj []
  | none => .obj []

/-- `rubric.get("grading_type") == "answer_sheet"`: Python equality of the
decoded value against that string literal. -/
def isAnswerSheetMarker : Json → Bool
  | .str s => s == "answer_sheet"
  | _ => false

inductive Strategy where
  | answerSheet
  | essay

/-- Strategy selection (assignments.py lines 158-162): answer-sheet
grading iff `questions` (default `[]`) is truthy and the grading-type
marker equals `"answer_sheet"`; also returns the questions value. Raises
`AttributeError` when the stored rubric is a truthy non-dictionary. -/
def selectStrategy (rubricOpt : Option Json) : Except String (Strategy × Json) := do
  let rubric := rubricOrEmpty rubricOpt
  let questions ← pyDictGetD rubric "questions" (.arr [])
  let gt ← pyDictGetD rubric "grading_type" Json.null
  if pyTruthy questions && isAnswerSheetMarker gt then
    pure (.answerSheet, questions)
  else
    pure (.essay, questions)

/-- `', '.join(x)` over a decoded JSON value. -/
def pyJoinIterable (j : Json) : Except String String := do
  let elems ← pyIter j
  let strs ← strOfJsonParts elems
  pure (String.intercalate ", " strs)

/-- The subscripts and joins performed on one stored question while
building the answer-sheet prompt (ollama_service.py lines 370-376); a
malformed stored question raises here, before the LLM call. -/
def checkQuestionForPrompt (q : Json) : Except String Unit := do
  _ ← pyGetItem q "question_number"
  _ ← pyGetItem q "question_text"
  _ ← pyGetItem q "model_answer"
  let kp ← pyDictGetD q "key_points" (.arr [])
  _ ← pyJoinIterable kp
  pure ()

def checkQuestionList : List Json → Except String Unit
  | [] => .ok ()
  | q :: rest => do
    checkQuestionForPrompt q
    checkQuestionList rest

/-- Prompt construction iterates the stored questions. -/
def checkQuestionsForPrompt (questions : Json) : Except String Unit := do
  let qs ← pyIter questions
  checkQuestionList qs

/-- The numeric value Python uses for `percentage / 100`: numbers are
used as-is, booleans count as 0/1, anything else raises `TypeError`. -/
def pyNumOf (j : Json) : Except String ℚ :=
  match j with
  | .num q => .ok q
  | .bool b => .ok (if b then 1 else 0)
  | _ => .error "TypeError"

/-- The per-question breakdown lines of the composed feedback
(assignments.py lines 190-194): both f-strings subscript each parsed
answer. -/
def perAnswerParts : List Json → Except String (List Json)
  | [] => .ok []
  | ans :: rest => do
    let qn ← pyGetItem ans "question_number"
    let sc ← pyGetItem ans "score"
    let ms ← pyGetItem ans "max_score"
    let fb ← pyGetItem ans "feedback"
    let tail ← perAnswerParts rest
    pure (.str ("\nQuestion " ++ pyStr qn ++ ": " ++ pyStr sc ++ "/" ++ pyStr ms ++ " points")
      :: .str ("  " ++ pyStr fb) :: tail)

/-- Feedback composition for the answer-sheet path (assignments.py lines
174-196): overall feedback, then enumerated strengths and improvement
areas when truthy, then the per-question breakdown when present, joined
with newlines (`"\n".join` requires every part to be a string). -/
def composeAnswerSheetFeedback (r : AnswerSheetResult) : Except String String := do
  let base : List Json := [r.overall_feedback]
  let withStrengths ←
    if pyTruthy r.strengths then do
      let ss ← pyIter r.strengths
      pure (base ++ [.str "\n\n**Strengths:**"] ++ ss.map fun s => .str ("• " ++ pyStr s))
    else pure base
  let withAreas ←
    if pyTruthy r.areas_for_improvement then do
      let ia ← pyIter r.areas_for_improvement
      pure (withStrengths ++ [.str "\n\n**Areas for Improvement:**"] ++
        ia.map fun a => .str ("• " ++ pyStr a))
    else pure withStrengths
  let withQs ←
    if pyTruthy r.parsed_answers then do
      let ansList ← pyIter r.parsed_answers
      let qparts ← perAnswerParts ansList
      pure (withAreas ++ [.str "\n\n**Question-by-Question Feedback:**"] ++ qparts)
    else pure withAreas
  pyJoin "\n" withQs

/-- The body of the background grading task (assignments.py lines 157-212,
everything inside the `try`), producing the `(score, feedback,
rubric_scores)` triple to persist, or the first raised exception. The
triple depends only on the assignment metadata and the LLM reply — not on
the submission record's current grading fields nor on the clock. -/
def gradeSubmissionBody (assignment : AssignmentRec) (llm : Except String String) :
    Except String (Json × Json × Json) := do
  let sel ← selectStrategy assignment.rubric
  match sel.1 with
  | .answerSheet => do
    checkQuestionsForPrompt sel.2
    let raw ← llm
    let result ← parse_and_grade_answer_sheet_extract assignment.max_points raw
    let p ← pyNumOf result.percentage
    let feedback ← composeAnswerSheetFeedback result
    pure (.num (p / 100 * assignment.max_points), .str feedback, result.rubric_scores)
  | .essay => do
    let raw ← llm
    let g ← grade_essay assignment.max_points raw
    pure (g.score, g.feedback, g.rubric_scores)

/-- `grade_submission_task`: on success the four grading fields are
written together (lines 208-214); any exception is caught by the
`except Exception` handler (lines 215-216), which logs and leaves the
record unchanged — the task never propagates an exception (it is a total
function here). -/
def grade_submission_task (assignment : AssignmentRec) (llm : Except String String)
    (now : ℕ) (sub : SubmissionRec) : SubmissionRec :=
  match gradeSubmissionBody assignment llm with
  | .ok (sc, fb, rs) =>
    { sub with score := some sc, feedback := some fb,
               rubric_scores := some rs, graded_at := some now }
  | .error _ => sub

/-- The `try` body of the manual grading endpoint (lines 253-258): one
essay-grading round trip, whatever the rubric says. -/
def manualGradeBody (assignment : AssignmentRec) (llm : Except String String) :
    Except String EssayGrade := do
  let raw ← llm
  grade_essay assignment.max_points raw

/-- `grade_submission_manual` (lines 242-274): always grades with
`grade_essay`, regardless of the rubric's questions or grading-type
marker; on success writes the four fields, on any exception responds with
HTTP 500 (the Boolean result) and leaves the record unchanged. -/
def grade_submission_manual (assignment : AssignmentRec) (llm : Except String String)
    (now : ℕ) (sub : SubmissionRec) : SubmissionRec × Bool :=
  match manualGradeBody assignment llm with
  | .ok g =>
    ({ sub with score := some g.score, feedback := some g.feedback,
                rubric_scores := some g.rubric_scores, graded_at := some now }, false)
  | .error _ => (sub, true)

/-! Concrete records used by the counterexamples and witnesses below: an
assignment whose stored rubric selects answer-sheet grading. -/

/-- A well-formed stored question (as produced by
`generate_assignment_questions`). -/
def sampleQuestion : Json :=
  .obj [("question_number", .num 1), ("question_text", .str "Q1"),
        ("model_answer", .str "A1"), ("key_points", .arr []), ("points", .num 10)]

/-- A rubric satisfying the answer-sheet selection condition. -/
def answerSheetRubric : Json :=
  .obj [("questions", .arr [sampleQuestion]), ("grading_type", .str "answer_sheet")]

def answerSheetAssignment : AssignmentRec := ⟨some answerSheetRubric, 100⟩

/-- A model reply carrying only a percentage. -/
def percent80Reply : String := "\x7b\"percentage\": 80\x7d"

/-- A model reply valid for both reply schemas: it carries an essay
`overall_score` and an answer-sheet `percentage`. -/
def dualReply : String :=
  "\x7b\"overall_score\": 10, \"percentage\": 50, \"detailed_feedback\": \"f\"\x7d"

/-- One persisted write to a submission record by either grading
operation. -/
inductive GradingStep : SubmissionRec → SubmissionRec → Prop
  | background (assignment : AssignmentRec) (llm : Except String String)
      (now : ℕ) (s : SubmissionRec) :
      GradingStep s (grade_submission_task assignment llm now s)
  | manual (assignment : AssignmentRec) (llm : Except String String)
      (now : ℕ) (s : SubmissionRec) :
      GradingStep s (grade_submission_manual assignment llm now s).1

/-- States a submission record can reach: created ungraded, then graded
any number of times by either operation. -/
inductive ReachableSubmission : SubmissionRec → Prop
  | init (content : String) : ReachableSubmission (ungradedSubmission content)
  | step {s s' : SubmissionRec} : ReachableSubmission s → GradingStep s s' →
      ReachableSubmission s'

/-! ## Supporting lemmas for the quiz grader -/

theorem pySubstr_nil_right (a : String) : pySubstr a "" = (a.data == []) := by
  unfold pySubstr
  rcases a with ⟨l⟩
  cases l with
  | nil => simp
  | cons c cs =>
    have h : ¬ (c :: cs <:+: ([] : List Char)) := by
      intro h
      simpa using h.sublist.length_le
    simp [h]

theorem answerCorrect_eq_claim (q : QuizQuestion) (a : String) :
    answerCorrect q a = claimAnswerCorrect q a := by
  unfold answerCorrect claimAnswerCorrect
  cases hty : isChoiceType q
  · simp only [Bool.false_eq_true, if_false]
    generalize normalizeAns a = sa
    generalize normalizeAns (q.correct_answer.getD "") = ca
    by_cases h1 : sa = ""
    · subst h1
      simp
    · have e1 : (sa == "") = false := beq_eq_false_iff_ne.mpr h1
      by_cases h2 : ca = ""
      · subst h2
        have hdata : sa.data ≠ [] := by
          intro hnil
          exact h1 (by cases sa; simp_all)
        have hsub : pySubstr sa "" = false := by
          rw [pySubstr_nil_right]
          simpa using hdata
        simp [e1, hsub]
      · have e2 : (ca == "") = false := beq_eq_false_iff_ne.mpr h2
        simp [bne, e1, e2]
  · rfl

theorem claimEarnedFrom_eq (answers : List (String × String)) (i : ℕ)
    (qs : List QuizQuestion) :
    claimEarnedFrom answers i qs = quizEarnedFrom answers i qs := by
  induction qs generalizing i with
  | nil => rfl
  | cons q rest ih =>
    simp only [claimEarnedFrom, quizEarnedFrom, answerCorrect_eq_claim, ih]

theorem quizEarnedFrom_nonneg (answers : List (String × String))
    (qs : List QuizQuestion) (h : ∀ q ∈ qs, 0 ≤ qPoints q) (i : ℕ) :
    0 ≤ quizEarnedFrom answers i qs := by
  induction qs generalizing i with
  | nil => simp [quizEarnedFrom]
  | cons q rest ih =>
    have hq : 0 ≤ qPoints q := h q (by simp)
    have hr : ∀ p ∈ rest, 0 ≤ qPoints p := fun p hp => h p (by simp [hp])
    have := ih hr (i + 1)
    unfold quizEarnedFrom
    split <;> linarith

theorem quizEarnedFrom_le_total (answers : List (String × String))
    (qs : List QuizQuestion) (h : ∀ q ∈ qs, 0 ≤ qPoints q) (i : ℕ) :
    quizEarnedFrom answers i qs ≤ quizTotalPoints qs := by
  induction qs generalizing i with
  | nil => simp [quizEarnedFrom, quizTotalPoints]
  | cons q rest ih =>
    have hq : 0 ≤ qPoints q := h q (by simp)
    have hr : ∀ p ∈ rest, 0 ≤ qPoints p := fun p hp => h p (by simp [hp])
    have := ih hr (i + 1)
    unfold quizEarnedFrom quizTotalPoints
    split <;> linarith

/-! ## Claim C1 -/

/-- Claim C1, counterexample: on a quiz whose single multiple-choice question
carries `points = -1` and is answered correctly, the code's score is 0
(guard `total_points > 0`), while the claim's reference definition
(score is 0 only when `totalPoints` is exactly 0) yields 100. -/
theorem C1_counterexample :
    submitQuizAttemptScore
        [⟨some "multiple_choice", some "a", some (-1)⟩] [("0", "a")] = 0 ∧
    claimQuizScore
        [⟨some "multiple_choice", some "a", some (-1)⟩] [("0", "a")] = 100 := by
  have htp : quizTotalPoints [⟨some "multiple_choice", some "a", some (-1)⟩] = -1 := by
    norm_num [quizTotalPoints, qPoints]
  have hc : claimAnswerCorrect ⟨some "multiple_choice", some "a", some (-1)⟩
      (lookupAnswer [("0", "a")] 0) = true := rfl
  have hep : claimEarnedFrom [("0", "a")] 0
      [⟨some "multiple_choice", some "a", some (-1)⟩] = -1 := by
    simp only [claimEarnedFrom, hc, if_true]
    norm_num [qPoints]
  constructor
  · unfold submitQuizAttemptScore
    rw [htp, if_neg (by norm_num)]
  · unfold claimQuizScore
    rw [htp, hep]
    norm_num

/-- Claim C1 (amended): the quiz score computed by `submit_quiz_attempt`
equals the claim's reference definition once the guard is read as in the
code: the final score is `earnedPoints / totalPoints × 100` when
`totalPoints` is positive and 0 otherwise (the per-question rules are
exactly as the claim states them; the code's extra non-emptiness test on
the correct answer is redundant). -/
theorem C1_quiz_score_matches_reference (questions : List QuizQuestion)
    (answers : List (String × String)) :
    submitQuizAttemptScore questions answers = claimQuizScoreAmended questions answers := by
  simp only [submitQuizAttemptScore, claimQuizScoreAmended, quizEarnedPoints,
    claimEarnedFrom_eq]

/-! ## Claim C9 -/

/-- Claim C9, counterexample: the quiz grader's score is not always within
`[0, 100]`. A quiz holding one question worth 2 points (answered correctly)
and one worth -1 point scores `2 / 1 × 100 = 200`. -/
theorem C9_counterexample :
    submitQuizAttemptScore
        [⟨some "multiple_choice", some "a", some 2⟩,
         ⟨some "multiple_choice", some "b", some (-1)⟩] [("0", "a")] = 200 ∧
    ¬ submitQuizAttemptScore
        [⟨some "multiple_choice", some "a", some 2⟩,
         ⟨some "multiple_choice", some "b", some (-1)⟩] [("0", "a")] ≤ 100 := by
  have h0 : answerCorrect ⟨some "multiple_choice", some "a", some 2⟩
      (lookupAnswer [("0", "a")] 0) = true := rfl
  have h1 : answerCorrect ⟨some "multiple_choice", some "b", some (-1)⟩
      (lookupAnswer [("0", "a")] 1) = false := rfl
  have htp : quizTotalPoints
      [⟨some "multiple_choice", some "a", some 2⟩,
       ⟨some "multiple_choice", some "b", some (-1)⟩] = 1 := by
    norm_num [quizTotalPoints, qPoints]
  have hep : quizEarnedPoints
      [⟨some "multiple_choice", some "a", some 2⟩,
       ⟨some "multiple_choice", some "b", some (-1)⟩] [("0", "a")] = 2 := by
    simp only [quizEarnedPoints, quizEarnedFrom, h0, h1, if_true, if_false]
    norm_num [qPoints]
  have hval : submitQuizAttemptScore
      [⟨some "multiple_choice", some "a", some 2⟩,
       ⟨some "multiple_choice", some "b", some (-1)⟩] [("0", "a")] = 200 := by
    unfold submitQuizAttemptScore
    rw [htp, hep, if_pos (by norm_num)]
    norm_num
  exact ⟨hval, by rw [hval]; norm_num⟩

/-- Claim C9 (amended): for every quiz all of whose questions carry a
nonnegative points value (with the default of 1.0 for an absent value) and
every attempt, the score computed by the deterministic quiz grader lies in
the closed interval `[0, 100]`. -/
theorem C9_score_in_range (questions : List QuizQuestion)
    (answers : List (String × String)) (h : ∀ q ∈ questions, 0 ≤ qPoints q) :
    0 ≤ submitQuizAttemptScore questions answers ∧
      submitQuizAttemptScore questions answers ≤ 100 := by
  unfold submitQuizAttemptScore
  by_cases htp : 0 < quizTotalPoints questions
  · rw [if_pos htp]
    have he0 : 0 ≤ quizEarnedPoints questions answers :=
      quizEarnedFrom_nonneg answers questions h 0
    have hle : quizEarnedPoints questions answers ≤ quizTotalPoints questions :=
      quizEarnedFrom_le_total answers questions h 0
    constructor
    · exact mul_nonneg (div_nonneg he0 htp.le) (by norm_num)
    · have hdiv : quizEarnedPoints questions answers / quizTotalPoints questions ≤ 1 :=
        (div_le_one htp).mpr hle
      calc quizEarnedPoints questions answers / quizTotalPoints questions * 100
          ≤ 1 * 100 := mul_le_mul_of_nonneg_right hdiv (by norm_num)
        _ = 100 := by norm_num
  · rw [if_neg htp]
    norm_num

/-- Claim C9 witness: the range bound applied to a concrete one-question
true/false quiz attempted with answer `" TRUE "`. -/
theorem C9_score_in_range_witness :
    0 ≤ submitQuizAttemptScore
        [⟨some "true_false", some "true", some 1⟩] [("0", " TRUE ")] ∧
      submitQuizAttemptScore
        [⟨some "true_false", some "true", some 1⟩] [("0", " TRUE ")] ≤ 100 :=
  C9_score_in_range _ _ (by
    intro q hq
    simp only [List.mem_singleton] at hq
    subst hq
    norm_num [qPoints])

/-! ## Supporting lemmas for the extraction span -/

theorem lastIdxN_spec (c : Char) (cs : List Char) :
    ∀ r : ℕ, lastIdxN cs c = some r → r < cs.length ∧ cs[r]? = some c := by
  induction cs with
  | nil =>
    intro r h
    simp [lastIdxN] at h
  | cons x rest ih =>
    intro r h
    unfold lastIdxN at h
    cases hrec : lastIdxN rest c with
    | some r' =>
      rw [hrec] at h
      obtain ⟨hlt, hget⟩ := ih r' hrec
      cases h
      refine ⟨by simpa using hlt, ?_⟩
      simpa using hget
    | none =>
      rw [hrec] at h
      by_cases hx : x = c
      · rw [if_pos hx] at h
        cases h
        subst hx
        simp
      · rw [if_neg hx] at h
        simp at h

theorem sliceClamp_zero (cs : List Char) : sliceClamp cs 0 = 0 := by
  unfold sliceClamp
  simp

theorem sliceClamp_neg_one (cs : List Char) :
    sliceClamp cs (-1) = cs.length - 1 := by
  unfold sliceClamp
  rw [if_pos (by omega)]
  omega

theorem sliceClamp_succ (cs : List Char) (r : ℕ) :
    sliceClamp cs ((r : Int) + 1) = min (r + 1) cs.length := by
  unfold sliceClamp
  rw [if_neg (by omega)]
  omega

theorem pySliceList_stop_zero (cs : List Char) (i : Int) :
    pySliceList cs i 0 = [] := by
  unfold pySliceList
  rw [sliceClamp_zero]
  simp

theorem extractJsonStr_of_rfind_none (response : String)
    (h : pyRfind response rbrace = -1) : extractJsonStr response = "" := by
  unfold extractJsonStr pySlice
  rw [h, show (-1 : Int) + 1 = 0 from rfl, pySliceList_stop_zero]

theorem extractJsonStr_of_find_neg (response : String)
    (h : pyFind response lbrace = -1) :
    extractJsonStr response = "" ∨ extractJsonStr response = ⟨[rbrace]⟩ := by
  unfold extractJsonStr pySlice
  rw [h]
  cases hr : lastIdxN response.data rbrace with
  | none =>
    left
    have hrf : pyRfind response rbrace = -1 := by
      unfold pyRfind
      rw [hr]
    rw [hrf, show (-1 : Int) + 1 = 0 from rfl, pySliceList_stop_zero]
  | some r =>
    obtain ⟨hlt, hget⟩ := lastIdxN_spec rbrace response.data r hr
    have hrf : pyRfind response rbrace = (r : Int) := by
      unfold pyRfind
      rw [hr]
    rw [hrf]
    unfold pySliceList
    rw [sliceClamp_neg_one, sliceClamp_succ]
    have hmin : min (r + 1) response.data.length = r + 1 := by omega
    rw [hmin]
    by_cases hcase : r + 1 = response.data.length
    · right
      have hr' : response.data.length - 1 = r := by omega
      rw [hr']
      have hdrop : response.data.drop r = rbrace :: response.data.drop (r + 1) := by
        rw [List.drop_eq_getElem_cons hlt]
        congr 1
        have hg := List.getElem?_eq_getElem hlt
        rw [hg] at hget
        exact Option.some.inj hget
      rw [hdrop]
      have h1 : r + 1 - r = 1 := by omega
      rw [h1]
      rfl
    · left
      have h0 : r + 1 - (response.data.length - 1) = 0 := by omega
      rw [h0]
      rfl

theorem jsonLoads_empty : jsonLoads "" = none := rfl

theorem jsonLoads_rbrace : jsonLoads ⟨[rbrace]⟩ = none := rfl

/-! ## Supporting lemmas for the extractors -/

theorem grade_essay_of_none (maxPoints : ℚ) (response : String)
    (h : jsonLoads (extractJsonStr response) = none) :
    grade_essay maxPoints response = .ok (essayFallback maxPoints response) := by
  unfold grade_essay
  rw [h]

theorem grade_essay_of_obj (maxPoints : ℚ) (response : String)
    (fields : List (String × Json))
    (h : jsonLoads (extractJsonStr response) = some (.obj fields)) :
    grade_essay maxPoints response =
      .ok ⟨(objGet fields "overall_score").getD (.num (maxPoints * (7 / 10))),
           (objGet fields "detailed_feedback").getD (.str "Good work! Keep improving."),
           (objGet fields "rubric_scores").getD (.obj []),
           (objGet fields "strengths").getD (.arr []),
           (objGet fields "areas_for_improvement").getD (.arr [])⟩ := by
  unfold grade_essay
  rw [h]

/-! ## Claim C4 -/

/-- Claim C4: whenever no opening brace or no closing brace can be located
in the raw model reply, or the located span is not syntactically valid
JSON, `grade_essay` returns exactly the fallback payload — score
`0.75 × max_points`, feedback the raw model text verbatim, and empty
rubric scores, strengths and improvement areas. -/
theorem C4_essay_extraction_fallback (maxPoints : ℚ) (response : String)
    (h : pyFind response lbrace = -1 ∨ pyRfind response rbrace = -1 ∨
      jsonLoads (extractJsonStr response) = none) :
    grade_essay maxPoints response =
      .ok ⟨.num (maxPoints * (3 / 4)), .str response, .obj [], .arr [], .arr []⟩ := by
  have hnone : jsonLoads (extractJsonStr response) = none := by
    rcases h with h | h | h
    · rcases extractJsonStr_of_find_neg response h with he | he <;> rw [he]
      · exact jsonLoads_empty
      · exact jsonLoads_rbrace
    · rw [extractJsonStr_of_rfind_none response h]
      exact jsonLoads_empty
    · exact h
  exact grade_essay_of_none maxPoints response hnone

/-- Claim C4 witness: a brace-free reply produces the fallback, and at
`max_points = 100` the fallback score is exactly 75. -/
theorem C4_essay_extraction_fallback_witness :
    pyFind "The essay shows promise." lbrace = -1 ∧
    grade_essay 100 "The essay shows promise." =
      .ok ⟨.num (100 * (3 / 4)), .str "The essay shows promise.", .obj [], .arr [], .arr []⟩ ∧
    Json.num ((100 : ℚ) * (3 / 4)) = Json.num 75 :=
  ⟨rfl, C4_essay_extraction_fallback 100 "The essay shows promise." (Or.inl rfl),
   congrArg Json.num (by norm_num)⟩

/-! ## Claim C10 -/

/-- Claim C10: when extraction succeeds but the parsed object lacks
`overall_score`, the returned score is `0.7 × max_points` — distinct from
the `0.75 × max_points` extraction-failure fallback whenever
`max_points ≠ 0`; likewise a missing `detailed_feedback` yields the fixed
string `"Good work! Keep improving."` rather than the raw model text. -/
theorem C10_parsed_missing_field_defaults (maxPoints : ℚ) (response : String)
    (fields : List (String × Json))
    (h : jsonLoads (extractJsonStr response) = some (.obj fields))
    (h1 : objGet fields "overall_score" = none)
    (h2 : objGet fields "detailed_feedback" = none) :
    grade_essay maxPoints response =
      .ok ⟨.num (maxPoints * (7 / 10)),
           .str "Good work! Keep improving.",
           (objGet fields "rubric_scores").getD (.obj []),
           (objGet fields "strengths").getD (.arr []),
           (objGet fields "areas_for_improvement").getD (.arr [])⟩ ∧
    (maxPoints ≠ 0 → maxPoints * (7 / 10) ≠ maxPoints * (3 / 4)) := by
  constructor
  · rw [grade_essay_of_obj maxPoints response fields h, h1, h2]
    rfl
  · intro hm hc
    apply hm
    linarith

/-- Claim C10 witness: for the reply `{"a": 1}` (parsed, but with no
`overall_score` and no `detailed_feedback`) at `max_points = 100`, the
score is `100 × 0.7 = 70` and the feedback is the fixed string. -/
theorem C10_parsed_missing_field_defaults_witness :
    grade_essay 100 "\x7b\"a\": 1\x7d" =
      .ok ⟨.num (100 * (7 / 10)), .str "Good work! Keep improving.",
           .obj [], .arr [], .arr []⟩ ∧
    Json.num ((100 : ℚ) * (7 / 10)) = Json.num 70 :=
  ⟨(C10_parsed_missing_field_defaults 100 "\x7b\"a\": 1\x7d"
      [("a", Json.num 1)] rfl rfl rfl).1,
   congrArg Json.num (by norm_num)⟩

/-! ## Claim C3 -/

/-- The `rubric_scores` comprehension succeeds exactly when every parsed
answer is a dictionary carrying a `question_number` key. -/
theorem buildRubricScores_ok (l : List Json)
    (h : ∀ a ∈ l, ∃ fs, a = Json.obj fs ∧ objGet fs "question_number" ≠ none) :
    ∀ acc, ∃ rs, buildRubricScores acc l = .ok rs := by
  induction l with
  | nil =>
    intro acc
    exact ⟨acc, rfl⟩
  | cons a rest ih =>
    intro acc
    obtain ⟨fs, ha, hqn⟩ := h a (by simp)
    subst ha
    cases hq : objGet fs "question_number" with
    | none => exact absurd hq hqn
    | some qn =>
      have hrest : ∀ a ∈ rest, ∃ fs, a = Json.obj fs ∧ objGet fs "question_number" ≠ none :=
        fun a ha => h a (by simp [ha])
      obtain ⟨rs, hrs⟩ := ih hrest
        (objInsert acc ("Question " ++ pyStr qn)
          (.obj [("score", (objGet fs "score").getD (.num 0)),
                 ("feedback", (objGet fs "feedback").getD (.str ""))]))
      refine ⟨rs, ?_⟩
      unfold buildRubricScores
      simp only [pyGetItem, pyDictGetD, hq, bind, Except.bind]
      exact hrs

/-- Claim C3, counterexample: the extraction stage is not exception-free on
well-formed replies, and the lesson-plan extractor does not fill absent
declared fields. The well-formed reply `{"parsed_answers": [{}]}` makes
answer-sheet extraction raise `KeyError` (uncaught by its
`except (json.JSONDecodeError, ValueError)` handler), and the well-formed
reply `{"title": "T"}` makes lesson-plan extraction return an object with
no `objectives` field. -/
theorem C3_counterexample :
    parse_and_grade_answer_sheet_extract 100 "\x7b\"parsed_answers\": [\x7b\x7d]\x7d" =
      .error "KeyError" ∧
    generate_lesson_plan_extract "t" none "\x7b\"title\": \"T\"\x7d" =
      Json.obj [("title", Json.str "T")] ∧
    objGet [("title", Json.str "T")] "objectives" = none :=
  ⟨rfl, rfl, rfl⟩

/-- Claim C3 (amended): for every raw model reply whose located span parses
as a JSON object, essay grading, quiz generation and assignment-question
extraction return all declared fields (absent optional fields filled with
the task defaults) without raising; lesson-plan extraction returns the
parsed object itself, normalized only in `materials`, without raising; and
answer-sheet extraction returns a fully populated result provided every
member of `parsed_answers` is an object carrying a `question_number` key
(otherwise a `KeyError`/`TypeError` escapes to the caller). -/
theorem C3_extractor_wellformed (maxPoints : ℚ) (response : String)
    (fields : List (String × Json)) (topic : String)
    (objectives : Option (List String)) (numQuestions : ℕ)
    (h : jsonLoads (extractJsonStr response) = some (.obj fields)) :
    grade_essay maxPoints response =
      .ok ⟨(objGet fields "overall_score").getD (.num (maxPoints * (7 / 10))),
           (objGet fields "detailed_feedback").getD (.str "Good work! Keep improving."),
           (objGet fields "rubric_scores").getD (.obj []),
           (objGet fields "strengths").getD (.arr []),
           (objGet fields "areas_for_improvement").getD (.arr [])⟩ ∧
    generate_quiz_extract topic response = .ok ((objGet fields "questions").getD (.arr [])) ∧
    generate_assignment_questions_extract topic numQuestions response =
      .ok ((objGet fields "questions").getD (.arr [])) ∧
    generate_lesson_plan_extract topic objectives response =
      .obj (lessonPlanMaterialsNorm fields) ∧
    (∀ ansList, pyIter ((objGet fields "parsed_answers").getD (.arr [])) = .ok ansList →
      (∀ a ∈ ansList, ∃ fs, a = Json.obj fs ∧ objGet fs "question_number" ≠ none) →
      ∃ r, parse_and_grade_answer_sheet_extract maxPoints response = .ok r) := by
  refine ⟨grade_essay_of_obj maxPoints response fields h, ?_, ?_, ?_, ?_⟩
  · unfold generate_quiz_extract
    rw [h]
  · unfold generate_assignment_questions_extract
    rw [h]
  · unfold generate_lesson_plan_extract
    rw [h]
  · intro ansList hiter hans
    obtain ⟨rs, hrs⟩ := buildRubricScores_ok ansList hans []
    have hres : parse_and_grade_answer_sheet_extract maxPoints response =
        .ok ⟨(objGet fields "parsed_answers").getD (.arr []),
             (objGet fields "total_score").getD (.num 0),
             (objGet fields "percentage").getD (.num 0),
             (objGet fields "overall_feedback").getD (.str ""),
             (objGet fields "strengths").getD (.arr []),
             (objGet fields "areas_for_improvement").getD (.arr []),
             .obj rs⟩ := by
      unfold parse_and_grade_answer_sheet_extract
      rw [h]
      simp only [bind, Except.bind, hiter, hrs]
    exact ⟨_, hres⟩

/-- Claim C3 witness: the amended statement applied to the concrete
well-formed reply `{"questions": [1]}`. -/
theorem C3_extractor_wellformed_witness :
    generate_quiz_extract "t" "\x7b\"questions\": [1]\x7d" = .ok (Json.arr [Json.num 1]) ∧
    ∃ r, parse_and_grade_answer_sheet_extract 100 "\x7b\"questions\": [1]\x7d" = .ok r := by
  have hmain := C3_extractor_wellformed 100 "\x7b\"questions\": [1]\x7d"
    [("questions", Json.arr [Json.num 1])] "t" none 5 rfl
  exact ⟨hmain.2.1, hmain.2.2.2.2 [] rfl (by
    intro a ha
    exact absurd ha (List.not_mem_nil a))⟩

/-! ## Supporting lemmas for the orchestrator -/

theorem grade_submission_task_of_ok (assignment : AssignmentRec)
    (llm : Except String String) (now : ℕ) (s : SubmissionRec)
    (sc fb rs : Json) (h : gradeSubmissionBody assignment llm = .ok (sc, fb, rs)) :
    grade_submission_task assignment llm now s =
      { s with score := some sc, feedback := some fb,
               rubric_scores := some rs, graded_at := some now } := by
  unfold grade_submission_task
  rw [h]

theorem grade_submission_task_of_err (assignment : AssignmentRec)
    (llm : Except String String) (now : ℕ) (s : SubmissionRec)
    (e : String) (h : gradeSubmissionBody assignment llm = .error e) :
    grade_submission_task assignment llm now s = s := by
  unfold grade_submission_task
  rw [h]

theorem grade_submission_manual_of_ok (assignment : AssignmentRec)
    (llm : Except String String) (now : ℕ) (s : SubmissionRec)
    (g : EssayGrade) (h : manualGradeBody assignment llm = .ok g) :
    grade_submission_manual assignment llm now s =
      ({ s with score := some g.score, feedback := some g.feedback,
                rubric_scores := some g.rubric_scores, graded_at := some now }, false) := by
  unfold grade_submission_manual
  rw [h]

theorem grade_submission_manual_of_err (assignment : AssignmentRec)
    (llm : Except String String) (now : ℕ) (s : SubmissionRec)
    (e : String) (h : manualGradeBody assignment llm = .error e) :
    grade_submission_manual assignment llm now s = (s, true) := by
  unfold grade_submission_manual
  rw [h]

/-- With a communication failure from the inference client, the grading
body raises whatever happens earlier or the failure itself. -/
theorem gradeSubmissionBody_llm_error (assignment : AssignmentRec) (c : String) :
    ∃ e, gradeSubmissionBody assignment (.error c) = .error e := by
  unfold gradeSubmissionBody
  cases hsel : selectStrategy assignment.rubric with
  | error e => exact ⟨e, by simp [bind, Except.bind, hsel]⟩
  | ok sel =>
    obtain ⟨strat, qv⟩ := sel
    cases strat with
    | answerSheet =>
      cases hchk : checkQuestionsForPrompt qv with
      | error e => exact ⟨e, by simp [bind, Except.bind, hsel, hchk]⟩
      | ok u =>
        cases u
        exact ⟨c, by simp [bind, Except.bind, hsel, hchk]⟩
    | essay => exact ⟨c, by simp [bind, Except.bind, hsel]⟩

/-- The grading-type marker test succeeds exactly on the stored string
`"answer_sheet"`. -/
theorem marker_iff (o : Option Json) :
    isAnswerSheetMarker (o.getD Json.null) = true ↔ o = some (Json.str "answer_sheet") := by
  cases o with
  | none => simp [isAnswerSheetMarker]
  | some j => cases j <;> simp [isAnswerSheetMarker, beq_iff_eq]

/-! ## Claim C5 -/

/-- A single grading write preserves the all-or-nothing shape of the four
grading fields. -/
theorem gradingStep_preserves (s s' : SubmissionRec) (hstep : GradingStep s s')
    (ih : s.graded_at.isSome ↔ (s.score.isSome ∧ s.feedback.isSome)) :
    s'.graded_at.isSome ↔ (s'.score.isSome ∧ s'.feedback.isSome) := by
  cases hstep with
  | background assignment llm now =>
    cases hb : gradeSubmissionBody assignment llm with
    | error e =>
      rw [grade_submission_task_of_err assignment llm now s e hb]
      exact ih
    | ok v =>
      obtain ⟨sc, fb, rs⟩ := v
      rw [grade_submission_task_of_ok assignment llm now s sc fb rs hb]
      simp
  | manual assignment llm now =>
    cases hb : manualGradeBody assignment llm with
    | error e =>
      rw [grade_submission_manual_of_err assignment llm now s e hb]
      exact ih
    | ok g =>
      rw [grade_submission_manual_of_ok assignment llm now s g hb]
      simp

/-- Claim C5: in every reachable state of a submission record, `gradedAt`
is set if and only if `score` and `feedback` are both present — no partial
grading state is ever persisted by either grading operation. -/
theorem C5_graded_iff_complete (s : SubmissionRec) (h : ReachableSubmission s) :
    s.graded_at.isSome ↔ (s.score.isSome ∧ s.feedback.isSome) := by
  induction h with
  | init content => simp [ungradedSubmission]
  | step hr hstep ih => exact gradingStep_preserves _ _ hstep ih

/-- Claim C5 witness: the invariant at the initial ungraded record. -/
theorem C5_graded_iff_complete_witness :
    (ungradedSubmission "essay text").graded_at.isSome ↔
      ((ungradedSubmission "essay text").score.isSome ∧
        (ungradedSubmission "essay text").feedback.isSome) :=
  C5_graded_iff_complete _ (ReachableSubmission.init "essay text")

/-! ## Claim C6 -/

/-- Claim C6: when the inference client reports a communication failure,
or any step of the grading body raises, the background task leaves the
submission record entirely unchanged (score, feedback, rubric scores and
gradedAt untouched); being a total function into `SubmissionRec`, it
propagates no exception to any caller. -/
theorem C6_failure_leaves_submission_unchanged (assignment : AssignmentRec)
    (llm : Except String String) (now : ℕ) (s : SubmissionRec) :
    (∀ c, llm = .error c → grade_submission_task assignment llm now s = s) ∧
    (∀ e, gradeSubmissionBody assignment llm = .error e →
      grade_submission_task assignment llm now s = s) := by
  constructor
  · intro c hc
    subst hc
    obtain ⟨e, he⟩ := gradeSubmissionBody_llm_error assignment c
    exact grade_submission_task_of_err assignment _ now s e he
  · intro e he
    exact grade_submission_task_of_err assignment llm now s e he

/-- Claim C6 witness: a concrete communication failure leaves a concrete
ungraded record untouched. -/
theorem C6_failure_leaves_submission_unchanged_witness :
    grade_submission_task ⟨none, 100⟩ (.error "connection refused") 7
      (ungradedSubmission "essay text") = ungradedSubmission "essay text" :=
  (C6_failure_leaves_submission_unchanged ⟨none, 100⟩ (.error "connection refused") 7
    (ungradedSubmission "essay text")).1 "connection refused" rfl

/-! ## Claim C2 -/

/-- Claim C2, counterexample: re-running the background grading of the
same submission with the same deterministic model output does not persist
an identical record — `graded_at` is refreshed with the run's own
`datetime.now()`, so two runs at times 0 and 1 persist records differing
in `gradedAt`. -/
theorem C2_counterexample :
    (grade_submission_task ⟨none, 100⟩ (.ok "great work") 0
      (ungradedSubmission "essay")).graded_at = some 0 ∧
    (grade_submission_task ⟨none, 100⟩ (.ok "great work") 1
      (grade_submission_task ⟨none, 100⟩ (.ok "great work") 0
        (ungradedSubmission "essay"))).graded_at = some 1 ∧
    grade_submission_task ⟨none, 100⟩ (.ok "great work") 1
      (grade_submission_task ⟨none, 100⟩ (.ok "great work") 0
        (ungradedSubmission "essay")) ≠
      grade_submission_task ⟨none, 100⟩ (.ok "great work") 0
        (ungradedSubmission "essay") := by
  refine ⟨rfl, rfl, fun h => ?_⟩
  have h1 : (some 1 : Option ℕ) = some 0 := congrArg SubmissionRec.graded_at h
  exact absurd h1 (by simp)

/-- Claim C2 (amended): re-invoking the background grading operation on
the same submission with the same deterministic model output repeats the
same strategy and overwrites the prior result with equal `score`,
`feedback` and `rubric_scores`; `gradedAt` is set to each run's own
timestamp, so the two persisted records are identical exactly when the
runs carry the same timestamp. -/
theorem C2_regrade_overwrites_equal (assignment : AssignmentRec)
    (llm : Except String String) (t1 t2 : ℕ) (s : SubmissionRec) :
    (grade_submission_task assignment llm t2
        (grade_submission_task assignment llm t1 s)).score =
      (grade_submission_task assignment llm t1 s).score ∧
    (grade_submission_task assignment llm t2
        (grade_submission_task assignment llm t1 s)).feedback =
      (grade_submission_task assignment llm t1 s).feedback ∧
    (grade_submission_task assignment llm t2
        (grade_submission_task assignment llm t1 s)).rubric_scores =
      (grade_submission_task assignment llm t1 s).rubric_scores ∧
    (t1 = t2 →
      grade_submission_task assignment llm t2
          (grade_submission_task assignment llm t1 s) =
        grade_submission_task assignment llm t1 s) := by
  cases hb : gradeSubmissionBody assignment llm with
  | error e =>
    rw [grade_submission_task_of_err assignment llm t1 s e hb,
        grade_submission_task_of_err assignment llm t2 s e hb]
    exact ⟨rfl, rfl, rfl, fun _ => rfl⟩
  | ok v =>
    obtain ⟨sc, fb, rs⟩ := v
    rw [grade_submission_task_of_ok assignment llm t1 s sc fb rs hb,
        grade_submission_task_of_ok assignment llm t2 _ sc fb rs hb]
    refine ⟨rfl, rfl, rfl, fun ht => ?_⟩
    subst ht
    rfl

/-- Claim C2 witness: two runs with equal timestamps persist identical
records. -/
theorem C2_regrade_overwrites_equal_witness :
    grade_submission_task ⟨none, 100⟩ (.ok "great work") 5
        (grade_submission_task ⟨none, 100⟩ (.ok "great work") 5
          (ungradedSubmission "essay")) =
      grade_submission_task ⟨none, 100⟩ (.ok "great work") 5
        (ungradedSubmission "essay") :=
  (C2_regrade_overwrites_equal ⟨none, 100⟩ (.ok "great work") 5 5
    (ungradedSubmission "essay")).2.2.2 rfl

/-! ## Claim C7 -/

/-- Claim C7, counterexample: the quantification over *every* grading
attempt fails. For an assignment whose rubric holds a non-empty questions
list and the `"answer_sheet"` marker, the background task does select
answer-sheet grading, but the manual endpoint still grades as an essay: on
a reply valid for both schemas (`overall_score` 10, `percentage` 50), the
manual endpoint persists the essay score 10 while the background task
persists the percentage-derived 50. -/
theorem C7_counterexample :
    selectStrategy (some answerSheetRubric) =
      .ok (.answerSheet, Json.arr [sampleQuestion]) ∧
    (grade_submission_manual answerSheetAssignment (.ok dualReply) 3
      (ungradedSubmission "sheet")).1.score = some (Json.num 10) ∧
    (∃ q : ℚ, (grade_submission_task answerSheetAssignment (.ok dualReply) 3
      (ungradedSubmission "sheet")).score = some (Json.num q) ∧ q = 50) := by
  refine ⟨rfl, rfl, ⟨50 / 100 * 100, rfl, by norm_num⟩⟩

/-- Claim C7 (amended): the *background* grading task selects its strategy
once from the stored rubric: when the rubric resolves to a dictionary, the
selected strategy is answer-sheet if and only if the rubric's `questions`
value (default `[]`) is truthy and its `grading_type` is the string
`"answer_sheet"`, and essay grading otherwise; the *manual* grading
endpoint ignores the rubric entirely (its outcome depends only on
`max_points`), always grading as an essay. -/
theorem C7_strategy_selection (rubricOpt : Option Json) (fs : List (String × Json))
    (strat : Strategy) (qv : Json)
    (hobj : rubricOrEmpty rubricOpt = Json.obj fs)
    (hsel : selectStrategy rubricOpt = .ok (strat, qv)) :
    (qv = (objGet fs "questions").getD (.arr []) ∧
      (strat = .answerSheet ↔
        (pyTruthy qv = true ∧
          objGet fs "grading_type" = some (Json.str "answer_sheet")))) ∧
    (∀ (r1 r2 : Option Json) (m : ℚ) (llm : Except String String)
        (now : ℕ) (s : SubmissionRec),
      grade_submission_manual ⟨r1, m⟩ llm now s =
        grade_submission_manual ⟨r2, m⟩ llm now s) := by
  constructor
  · unfold selectStrategy at hsel
    rw [hobj] at hsel
    simp only [pyDictGetD, bind, Except.bind] at hsel
    cases hcond : pyTruthy ((objGet fs "questions").getD (.arr [])) &&
        isAnswerSheetMarker ((objGet fs "grading_type").getD Json.null) with
    | true =>
      rw [hcond] at hsel
      have hsel' : (Strategy.answerSheet, (objGet fs "questions").getD (.arr [])) =
          (strat, qv) := Except.ok.inj hsel
      have hstrat : Strategy.answerSheet = strat := congrArg Prod.fst hsel'
      have hqv : (objGet fs "questions").getD (.arr []) = qv := congrArg Prod.snd hsel'
      subst hqv
      refine ⟨rfl, ?_⟩
      have hq : pyTruthy ((objGet fs "questions").getD (.arr [])) = true := by
        cases h1 : pyTruthy ((objGet fs "questions").getD (.arr [])) with
        | true => rfl
        | false =>
          rw [h1] at hcond
          simp at hcond
      have hmB : isAnswerSheetMarker ((objGet fs "grading_type").getD Json.null) = true := by
        cases h2 : isAnswerSheetMarker ((objGet fs "grading_type").getD Json.null) with
        | true => rfl
        | false =>
          rw [h2] at hcond
          simp at hcond
      exact ⟨fun _ => ⟨hq, (marker_iff _).mp hmB⟩, fun _ => hstrat.symm⟩
    | false =>
      rw [hcond] at hsel
      have hsel' : (Strategy.essay, (objGet fs "questions").getD (.arr [])) =
          (strat, qv) := Except.ok.inj hsel
      have hstrat : Strategy.essay = strat := congrArg Prod.fst hsel'
      have hqv : (objGet fs "questions").getD (.arr []) = qv := congrArg Prod.snd hsel'
      subst hqv
      refine ⟨rfl, ?_⟩
      constructor
      · intro hctr
        rw [← hstrat] at hctr
        exact absurd hctr (by simp)
      · rintro ⟨hq, hm⟩
        have hmB : isAnswerSheetMarker ((objGet fs "grading_type").getD Json.null) = true :=
          (marker_iff _).mpr hm
        rw [hq, hmB] at hcond
        simp at hcond
  · intro r1 r2 m llm now s
    rfl

/-- Claim C7 witness: the amended selection rule applied to the concrete
answer-sheet rubric. -/
theorem C7_strategy_selection_witness :
    pyTruthy (Json.arr [sampleQuestion]) = true ∧
    objGet [("questions", Json.arr [sampleQuestion]),
            ("grading_type", Json.str "answer_sheet")] "grading_type" =
      some (Json.str "answer_sheet") :=
  (C7_strategy_selection (some answerSheetRubric)
    [("questions", Json.arr [sampleQuestion]), ("grading_type", Json.str "answer_sheet")]
    .answerSheet (Json.arr [sampleQuestion]) rfl rfl).1.2.mp rfl

/-! ## Claim C8 -/

/-- Claim C8: on a successful answer-sheet grading attempt, the persisted
score equals the reported percentage divided by 100 times the assignment's
`max_points`, with the composed feedback, the per-question rubric scores,
and the completion timestamp written together. -/
theorem C8_answer_sheet_score (assignment : AssignmentRec)
    (llm : Except String String) (now : ℕ) (s : SubmissionRec)
    (qv : Json) (raw : String) (result : AnswerSheetResult) (p : ℚ) (fbtext : String)
    (hsel : selectStrategy assignment.rubric = .ok (.answerSheet, qv))
    (hchk : checkQuestionsForPrompt qv = .ok ())
    (hraw : llm = .ok raw)
    (hparse : parse_and_grade_answer_sheet_extract assignment.max_points raw = .ok result)
    (hp : pyNumOf result.percentage = .ok p)
    (hfb : composeAnswerSheetFeedback result = .ok fbtext) :
    grade_submission_task assignment llm now s =
      { s with score := some (.num (p / 100 * assignment.max_points)),
               feedback := some (.str fbtext),
               rubric_scores := some result.rubric_scores,
               graded_at := some now } := by
  have hbody : gradeSubmissionBody assignment llm =
      .ok (.num (p / 100 * assignment.max_points), .str fbtext, result.rubric_scores) := by
    unfold gradeSubmissionBody
    subst hraw
    simp only [bind, Except.bind, hsel, hchk, hparse, hp, hfb]
    rfl
  exact grade_submission_task_of_ok assignment llm now s _ _ _ hbody

/-- Claim C8 witness: `percentage = 80` and `max_points = 100` persist
exactly 80. -/
theorem C8_answer_sheet_score_witness :
    (grade_submission_task answerSheetAssignment (.ok percent80Reply) 3
      (ungradedSubmission "sheet")).score = some (Json.num (80 / 100 * 100)) ∧
    (80 : ℚ) / 100 * 100 = 80 := by
  constructor
  · have h := C8_answer_sheet_score answerSheetAssignment (.ok percent80Reply) 3
      (ungradedSubmission "sheet") (Json.arr [sampleQuestion]) percent80Reply
      ⟨Json.arr [], Json.num 0, Json.num 80, Json.str "", Json.arr [], Json.arr [], Json.obj []⟩
      80 "" rfl rfl rfl rfl rfl rfl
    rw [h]
    rfl
  · norm_num

end EduAI
